import Mathlib

/-!
Shallow embedding of the classification engine of
`panel_air_quality_dashboard.py` (Urban_Air_Quality): the AQI
piecewise-linear transform `calc_aqi`, the AQI severity banding
`get_aqi_status`, the per-pollutant breakpoint classifier
`get_pollutant_status`, and the pollutant-card data assembly of
`create_pollutant_cards`.  Concentrations are modelled as rationals;
The truncation toward zero of the Python builtin int is modelled by `pyInt`.
-/

namespace UrbanAir

/-- The Python builtin int applied to a (real-valued) number: truncation toward
zero, i.e. floor for non-negative arguments and ceiling for negative ones. -/
def pyInt (x : ℚ) : ℤ := if 0 ≤ x then ⌊x⌋ else ⌈x⌉

/-- `calc_aqi(pm25)` from the source: AQI from PM2.5 via the EPA
piecewise-linear breakpoints, each branch guarded by `<=` and the linear
interpolant truncated with `int()`; inputs above 500.4 return 500. -/
def calc_aqi (pm25 : ℚ) : ℤ :=
  if pm25 ≤ 12 then pyInt (pm25 / 12 * 50)
  else if pm25 ≤ 35.4 then pyInt (50 + (pm25 - 12) / (35.4 - 12) * 50)
  else if pm25 ≤ 55.4 then pyInt (100 + (pm25 - 35.4) / (55.4 - 35.4) * 50)
  else if pm25 ≤ 150.4 then pyInt (150 + (pm25 - 55.4) / (150.4 - 55.4) * 100)
  else if pm25 ≤ 250.4 then pyInt (200 + (pm25 - 150.4) / (250.4 - 150.4) * 100)
  else if pm25 ≤ 350.4 then pyInt (300 + (pm25 - 250.4) / (350.4 - 250.4) * 100)
  else if pm25 ≤ 500.4 then pyInt (400 + (pm25 - 350.4) / (500.4 - 350.4) * 100)
  else 500

/-- `get_aqi_status(aqi)` from the source: status label, emoji token,
marker color and background color for an integer AQI.  The emoji strings
reproduce the exact (mojibake) characters stored in the source file. -/
def get_aqi_status (aqi : ℤ) : String × String × String × String :=
  if aqi ≤ 50 then ("Good", "\uF8FF\u00FC\u00F2\u00E4", "#00e400", "#e8f5e8")
  else if aqi ≤ 100 then ("Moderate", "\uF8FF\u00FC\u00F2\u00EA", "#ff8c00", "#fff3e0")
  else if aqi ≤ 150 then
    ("Unhealthy for Sensitive Groups", "\uF8FF\u00FC\u00F2\u2211", "#ff7e00", "#fff3e0")
  else if aqi ≤ 200 then ("Unhealthy", "\uF8FF\u00FC\u00F2\u2211", "#ff0000", "#ffebee")
  else if aqi ≤ 300 then ("Very Unhealthy", "\uF8FF\u00FC\u00A7\u00A2", "#8f3f97", "#f3e5f5")
  else ("Hazardous", "\u201A\u00F2\u2020\u00D4\u220F\u00E8", "#7e0023", "#fce4ec")

/-- `get_pollutant_status(pollutant, value)` from the source: status label,
marker color and background color for a pollutant name and a concentration,
one `<=`-guarded if-chain per known pollutant, and the neutral "Unknown"
triple for any other name. -/
def get_pollutant_status (pollutant : String) (value : ℚ) : String × String × String :=
  if pollutant = "PM2.5" then
    if value ≤ 12 then ("Good", "#00e400", "#e8f5e8")
    else if value ≤ 35.4 then ("Moderate", "#ff8c00", "#fff3e0")
    else if value ≤ 55.4 then ("Poor", "#ff7e00", "#fff0e6")
    else if value ≤ 150.4 then ("Unhealthy", "#ff0000", "#ffe6e6")
    else if value ≤ 250.4 then ("Severe", "#8f3f97", "#f3e5f5")
    else ("Hazardous", "#7e0023", "#fce4ec")
  else if pollutant = "PM10" then
    if value ≤ 54 then ("Good", "#00e400", "#e8f5e8")
    else if value ≤ 154 then ("Moderate", "#ff8c00", "#fff3e0")
    else if value ≤ 254 then ("Poor", "#ff7e00", "#fff0e6")
    else if value ≤ 354 then ("Unhealthy", "#ff0000", "#ffe6e6")
    else if value ≤ 424 then ("Severe", "#8f3f97", "#f3e5f5")
    else ("Hazardous", "#7e0023", "#fce4ec")
  else if pollutant = "NO2" then
    if value ≤ 53 then ("Good", "#00e400", "#e8f5e8")
    else if value ≤ 100 then ("Moderate", "#ff8c00", "#fff3e0")
    else if value ≤ 360 then ("Poor", "#ff7e00", "#fff0e6")
    else if value ≤ 649 then ("Unhealthy", "#ff0000", "#ffe6e6")
    else if value ≤ 1249 then ("Severe", "#8f3f97", "#f3e5f5")
    else ("Hazardous", "#7e0023", "#fce4ec")
  else if pollutant = "O3" then
    if value ≤ 54 then ("Good", "#00e400", "#e8f5e8")
    else if value ≤ 70 then ("Moderate", "#ff8c00", "#fff3e0")
    else if value ≤ 85 then ("Poor", "#ff7e00", "#fff0e6")
    else if value ≤ 105 then ("Unhealthy", "#ff0000", "#ffe6e6")
    else if value ≤ 200 then ("Severe", "#8f3f97", "#f3e5f5")
    else ("Hazardous", "#7e0023", "#fce4ec")
  else if pollutant = "CO" then
    if value ≤ 4.4 then ("Good", "#00e400", "#e8f5e8")
    else if value ≤ 9.4 then ("Moderate", "#ff8c00", "#fff3e0")
    else if value ≤ 12.4 then ("Poor", "#ff7e00", "#fff0e6")
    else if value ≤ 15.4 then ("Unhealthy", "#ff0000", "#ffe6e6")
    else if value ≤ 30.4 then ("Severe", "#8f3f97", "#f3e5f5")
    else ("Hazardous", "#7e0023", "#fce4ec")
  else if pollutant = "SO2" then
    if value ≤ 35 then ("Good", "#00e400", "#e8f5e8")
    else if value ≤ 75 then ("Moderate", "#ff8c00", "#fff3e0")
    else if value ≤ 185 then ("Poor", "#ff7e00", "#fff0e6")
    else if value ≤ 304 then ("Unhealthy", "#ff0000", "#ffe6e6")
    else if value ≤ 604 then ("Severe", "#8f3f97", "#f3e5f5")
    else ("Hazardous", "#7e0023", "#fce4ec")
  else ("Unknown", "#666666", "#f5f5f5")

/-- The exact (rational-valued) piecewise-linear interpolant underlying
`calc_aqi`, before `int()` truncation; same branch structure and same
constants as the source. -/
def aqiInterp (pm25 : ℚ) : ℚ :=
  if pm25 ≤ 12 then pm25 / 12 * 50
  else if pm25 ≤ 35.4 then 50 + (pm25 - 12) / (35.4 - 12) * 50
  else if pm25 ≤ 55.4 then 100 + (pm25 - 35.4) / (55.4 - 35.4) * 50
  else if pm25 ≤ 150.4 then 150 + (pm25 - 55.4) / (150.4 - 55.4) * 100
  else if pm25 ≤ 250.4 then 200 + (pm25 - 150.4) / (250.4 - 150.4) * 100
  else if pm25 ≤ 350.4 then 300 + (pm25 - 250.4) / (350.4 - 250.4) * 100
  else if pm25 ≤ 500.4 then 400 + (pm25 - 350.4) / (500.4 - 350.4) * 100
  else 500

/-- The six AQI severity bands of `get_aqi_status`, indexed in scan order
(every index from 5 up is the open-ended Hazardous band). -/
def aqiBand : ℕ → String × String × String × String
  | 0 => ("Good", "\uF8FF\u00FC\u00F2\u00E4", "#00e400", "#e8f5e8")
  | 1 => ("Moderate", "\uF8FF\u00FC\u00F2\u00EA", "#ff8c00", "#fff3e0")
  | 2 => ("Unhealthy for Sensitive Groups", "\uF8FF\u00FC\u00F2\u2211", "#ff7e00", "#fff3e0")
  | 3 => ("Unhealthy", "\uF8FF\u00FC\u00F2\u2211", "#ff0000", "#ffebee")
  | 4 => ("Very Unhealthy", "\uF8FF\u00FC\u00A7\u00A2", "#8f3f97", "#f3e5f5")
  | _ => ("Hazardous", "\u201A\u00F2\u2020\u00D4\u220F\u00E8", "#7e0023", "#fce4ec")

/-- The six per-pollutant severity bands of `get_pollutant_status` (label,
marker color, background color), shared by all six known pollutants and
indexed in scan order. -/
def pollutantBand : ℕ → String × String × String
  | 0 => ("Good", "#00e400", "#e8f5e8")
  | 1 => ("Moderate", "#ff8c00", "#fff3e0")
  | 2 => ("Poor", "#ff7e00", "#fff0e6")
  | 3 => ("Unhealthy", "#ff0000", "#ffe6e6")
  | 4 => ("Severe", "#8f3f97", "#f3e5f5")
  | _ => ("Hazardous", "#7e0023", "#fce4ec")

/-- The marker-color sequence shared by both scales. -/
def markerColor : ℕ → String
  | 0 => "#00e400"
  | 1 => "#ff8c00"
  | 2 => "#ff7e00"
  | 3 => "#ff0000"
  | 4 => "#8f3f97"
  | _ => "#7e0023"

/-- Index of the band an integer AQI falls into, following the comparison
order of `get_aqi_status`. -/
def aqiBandIdx (aqi : ℤ) : ℕ :=
  if aqi ≤ 50 then 0
  else if aqi ≤ 100 then 1
  else if aqi ≤ 150 then 2
  else if aqi ≤ 200 then 3
  else if aqi ≤ 300 then 4
  else 5

/-- Index of the band a concentration falls into for a table with upper
bounds `b1 < b2 < b3 < b4 < b5`, following the comparison order of
`get_pollutant_status`. -/
def pollutantBandIdx (b1 b2 b3 b4 b5 v : ℚ) : ℕ :=
  if v ≤ b1 then 0
  else if v ≤ b2 then 1
  else if v ≤ b3 then 2
  else if v ≤ b4 then 3
  else if v ≤ b5 then 4
  else 5

/-- The five closed upper bounds of the table of each known pollutant (the sixth
band is open-ended), as listed both in the source if-chains and in the
table of spec section 4.2; `none` for an unrecognized pollutant name. -/
def pollutantBounds (p : String) : Option (ℚ × ℚ × ℚ × ℚ × ℚ) :=
  if p = "PM2.5" then some (12, 35.4, 55.4, 150.4, 250.4)
  else if p = "PM10" then some (54, 154, 254, 354, 424)
  else if p = "NO2" then some (53, 100, 360, 649, 1249)
  else if p = "O3" then some (54, 70, 85, 105, 200)
  else if p = "CO" then some (4.4, 9.4, 12.4, 15.4, 30.4)
  else if p = "SO2" then some (35, 75, 185, 304, 604)
  else none

/-- Spec-side evaluation of a breakpoint table (§4.2): scan the bands in
ascending order of upper bound, return the first band whose upper bound is
`≥` the input, and fall through to the open-ended Hazardous band when no
bound matches. -/
def scanBands : List (ℚ × String × String × String) → ℚ → String × String × String
  | [], _ => ("Hazardous", "#7e0023", "#fce4ec")
  | (b, res) :: rest, v => if v ≤ b then res else scanBands rest v

/-- Spec-side table for the five closed bands of a pollutant, given its
upper bounds: the fixed label and color sequence of §4.2 in ascending
order. -/
def specTable (t : ℚ × ℚ × ℚ × ℚ × ℚ) : List (ℚ × String × String × String) :=
  [(t.1, "Good", "#00e400", "#e8f5e8"),
   (t.2.1, "Moderate", "#ff8c00", "#fff3e0"),
   (t.2.2.1, "Poor", "#ff7e00", "#fff0e6"),
   (t.2.2.2.1, "Unhealthy", "#ff0000", "#ffe6e6"),
   (t.2.2.2.2, "Severe", "#8f3f97", "#f3e5f5")]

/-- Modelled from the spec: the InvalidInput policy of section 7, under which the AQI
computation rejects malformed (negative) numeric input instead of
returning a result.  The source has no such check; this definition exists
only to state that policy and compare it with `calc_aqi`. -/
def calcAqiChecked (pm25 : ℚ) : Except String ℤ :=
  if pm25 < 0 then Except.error "InvalidInput"
  else Except.ok (calc_aqi pm25)

/-- The fields of one latest-readings row consumed by
`create_pollutant_cards`: the four pollutants read unconditionally and the
two read through `.get(..., default)`, which we model as optional. -/
structure Row where
  pm25 : ℚ
  pm10 : ℚ
  no2 : ℚ
  o3 : ℚ
  co : Option ℚ
  so2 : Option ℚ

/-- The per-pollutant `(name, value, status, color)` entries of the
`pollutantData` map that `create_pollutant_cards` writes into its page:
PM2.5, PM10, NO2 and O3 carry the status and color computed by
`get_pollutant_status` from the row, while CO and SO2 carry the literal
status "Good" and color "#00e400" written in the template, with
co_value defaulting to 95 and so2_value to 0 when the field is absent.
The constant unit and icon fields of each entry are omitted. -/
def create_pollutant_cards_data (r : Row) : List (String × ℚ × String × String) :=
  let co_value := r.co.getD 95
  let so2_value := r.so2.getD 0
  let pm25_s := get_pollutant_status "PM2.5" r.pm25
  let pm10_s := get_pollutant_status "PM10" r.pm10
  let no2_s := get_pollutant_status "NO2" r.no2
  let o3_s := get_pollutant_status "O3" r.o3
  [("PM2.5", r.pm25, pm25_s.1, pm25_s.2.1),
   ("PM10", r.pm10, pm10_s.1, pm10_s.2.1),
   ("NO2", r.no2, no2_s.1, no2_s.2.1),
   ("O3", r.o3, o3_s.1, o3_s.2.1),
   ("CO", co_value, "Good", "#00e400"),
   ("SO2", so2_value, "Good", "#00e400")]

lemma aqiInterp_nonneg (q : ℚ) (hq : 0 ≤ q) : 0 ≤ aqiInterp q := by
  unfold aqiInterp
  split_ifs <;> (try norm_num) <;> (try positivity) <;> linarith

lemma aqiInterp_le_500 (q : ℚ) : aqiInterp q ≤ 500 := by
  unfold aqiInterp
  split_ifs <;> (try norm_num) <;> linarith

lemma calc_aqi_eq_pyInt (q : ℚ) : calc_aqi q = pyInt (aqiInterp q) := by
  unfold calc_aqi aqiInterp
  split_ifs <;> rfl

/-- For non-negative input, every branch of `calc_aqi` truncates a
non-negative quantity, so `int()` truncation coincides with `⌊·⌋`. -/
lemma calc_aqi_eq_floor (q : ℚ) (hq : 0 ≤ q) : calc_aqi q = ⌊aqiInterp q⌋ := by
  rw [calc_aqi_eq_pyInt, pyInt, if_pos (aqiInterp_nonneg q hq)]

lemma calc_aqi_nonneg (q : ℚ) (hq : 0 ≤ q) : 0 ≤ calc_aqi q := by
  rw [calc_aqi_eq_floor q hq]
  exact Int.le_floor.mpr (by exact_mod_cast aqiInterp_nonneg q hq)

lemma calc_aqi_le_500 (q : ℚ) (hq : 0 ≤ q) : calc_aqi q ≤ 500 := by
  rw [calc_aqi_eq_floor q hq]
  calc ⌊aqiInterp q⌋ ≤ ⌊(500 : ℚ)⌋ := Int.floor_le_floor (aqiInterp_le_500 q)
    _ = 500 := by norm_num

lemma get_aqi_status_eq_band (aqi : ℤ) :
    get_aqi_status aqi = aqiBand (aqiBandIdx aqi) := by
  unfold get_aqi_status aqiBandIdx
  split_ifs <;> simp [aqiBand]

lemma aqiBandIdx_lt (aqi : ℤ) : aqiBandIdx aqi < 6 := by
  unfold aqiBandIdx
  split_ifs <;> norm_num

lemma pollutantBandIdx_lt (b1 b2 b3 b4 b5 v : ℚ) :
    pollutantBandIdx b1 b2 b3 b4 b5 v < 6 := by
  unfold pollutantBandIdx
  split_ifs <;> norm_num

lemma get_pollutant_status_eq_band (p : String) (b1 b2 b3 b4 b5 : ℚ)
    (h : pollutantBounds p = some (b1, b2, b3, b4, b5)) (v : ℚ) :
    get_pollutant_status p v = pollutantBand (pollutantBandIdx b1 b2 b3 b4 b5 v) := by
  unfold pollutantBounds at h
  split_ifs at h with hp1 hp2 hp3 hp4 hp5 hp6 <;>
    simp only [Option.some.injEq, Prod.mk.injEq] at h
  · obtain ⟨e1, e2, e3, e4, e5⟩ := h
    subst e1; subst e2; subst e3; subst e4; subst e5
    simp only [get_pollutant_status, if_pos hp1]
    unfold pollutantBandIdx
    split_ifs <;> simp [pollutantBand]
  · obtain ⟨e1, e2, e3, e4, e5⟩ := h
    subst e1; subst e2; subst e3; subst e4; subst e5
    simp only [get_pollutant_status, if_neg hp1, if_pos hp2]
    unfold pollutantBandIdx
    split_ifs <;> simp [pollutantBand]
  · obtain ⟨e1, e2, e3, e4, e5⟩ := h
    subst e1; subst e2; subst e3; subst e4; subst e5
    simp only [get_pollutant_status, if_neg hp1, if_neg hp2, if_pos hp3]
    unfold pollutantBandIdx
    split_ifs <;> simp [pollutantBand]
  · obtain ⟨e1, e2, e3, e4, e5⟩ := h
    subst e1; subst e2; subst e3; subst e4; subst e5
    simp only [get_pollutant_status, if_neg hp1, if_neg hp2, if_neg hp3,
      if_pos hp4]
    unfold pollutantBandIdx
    split_ifs <;> simp [pollutantBand]
  · obtain ⟨e1, e2, e3, e4, e5⟩ := h
    subst e1; subst e2; subst e3; subst e4; subst e5
    simp only [get_pollutant_status, if_neg hp1, if_neg hp2, if_neg hp3,
      if_neg hp4, if_pos hp5]
    unfold pollutantBandIdx
    split_ifs <;> simp [pollutantBand]
  · obtain ⟨e1, e2, e3, e4, e5⟩ := h
    subst e1; subst e2; subst e3; subst e4; subst e5
    simp only [get_pollutant_status, if_neg hp1, if_neg hp2, if_neg hp3,
      if_neg hp4, if_neg hp5, if_pos hp6]
    unfold pollutantBandIdx
    split_ifs <;> simp [pollutantBand]

lemma band_marker_eq (k : ℕ) : (aqiBand k).2.2.1 = (pollutantBand k).2.1 := by
  rcases k with _ | _ | _ | _ | _ | k <;> simp [aqiBand, pollutantBand]

lemma aqiBand_marker (k : ℕ) : (aqiBand k).2.2.1 = markerColor k := by
  rcases k with _ | _ | _ | _ | _ | k <;> simp [aqiBand, markerColor]

lemma pollutantBand_marker (k : ℕ) : (pollutantBand k).2.1 = markerColor k := by
  rcases k with _ | _ | _ | _ | _ | k <;> simp [pollutantBand, markerColor]

/-- C3: `get_aqi_status` labels integer AQI values by the severity banding
table: Good on 0..50, Moderate on 51..100, Unhealthy for Sensitive Groups
on 101..150, Unhealthy on 151..200, Very Unhealthy on 201..300 and
Hazardous from 301 up; in particular 50 is Good, 51 Moderate and 301
Hazardous. -/
theorem C3_aqi_severity_banding :
    (∀ aqi : ℤ,
      (0 ≤ aqi ∧ aqi ≤ 50 → (get_aqi_status aqi).1 = "Good") ∧
      (51 ≤ aqi ∧ aqi ≤ 100 → (get_aqi_status aqi).1 = "Moderate") ∧
      (101 ≤ aqi ∧ aqi ≤ 150 →
        (get_aqi_status aqi).1 = "Unhealthy for Sensitive Groups") ∧
      (151 ≤ aqi ∧ aqi ≤ 200 → (get_aqi_status aqi).1 = "Unhealthy") ∧
      (201 ≤ aqi ∧ aqi ≤ 300 → (get_aqi_status aqi).1 = "Very Unhealthy") ∧
      (301 ≤ aqi → (get_aqi_status aqi).1 = "Hazardous")) ∧
    (get_aqi_status 50).1 = "Good" ∧
    (get_aqi_status 51).1 = "Moderate" ∧
    (get_aqi_status 301).1 = "Hazardous" := by
  refine ⟨fun aqi => ?_, by norm_num [get_aqi_status],
    by norm_num [get_aqi_status], by norm_num [get_aqi_status]⟩
  refine ⟨?_, ?_, ?_, ?_, ?_, ?_⟩ <;>
    (intro h; unfold get_aqi_status; split_ifs <;> first | rfl | omega)

/-- Witness for C3 at a concrete point of each band with a hypothesis. -/
theorem C3_witness :
    ((101 : ℤ) ≤ 120 ∧ (120 : ℤ) ≤ 150) ∧
    (get_aqi_status 120).1 = "Unhealthy for Sensitive Groups" :=
  ⟨⟨by decide, by decide⟩,
    (C3_aqi_severity_banding.1 120).2.2.1 ⟨by decide, by decide⟩⟩

/-- C5: for any pollutant name outside the six known kinds,
`get_pollutant_status` returns the distinguished Unknown triple with the
neutral-gray colors, for every value. -/
theorem C5_unknown_pollutant :
    ∀ p : String,
      p ∉ (["PM2.5", "PM10", "NO2", "O3", "CO", "SO2"] : List String) →
      ∀ v : ℚ, get_pollutant_status p v = ("Unknown", "#666666", "#f5f5f5") := by
  intro p hp v
  simp only [List.mem_cons, List.not_mem_nil, or_false] at hp
  push_neg at hp
  obtain ⟨h1, h2, h3, h4, h5, h6⟩ := hp
  simp [get_pollutant_status, h1, h2, h3, h4, h5, h6]

/-- Witness for C5: an unrecognized kind at value 10 yields Unknown. -/
theorem C5_witness :
    "XYZ" ∉ (["PM2.5", "PM10", "NO2", "O3", "CO", "SO2"] : List String) ∧
    get_pollutant_status "XYZ" 10 = ("Unknown", "#666666", "#f5f5f5") :=
  ⟨by decide, C5_unknown_pollutant "XYZ" (by decide) 10⟩

/-- C8: every negative PM2.5 concentration takes the first branch of
`calc_aqi` and yields the truncation toward zero of pm25 / 12 * 50, with
no error; at pm25 = -12 the result is -50, a negative integer outside
[0, 500]. -/
theorem C8_negative_first_branch :
    (∀ q : ℚ, q < 0 → calc_aqi q = pyInt (q / 12 * 50)) ∧
    calc_aqi (-12) = -50 ∧ calc_aqi (-12) < 0 := by
  have h12 : calc_aqi (-12) = -50 := by
    norm_num [calc_aqi, pyInt]
    rw [show ((-50 : ℚ)) = ((-50 : ℤ) : ℚ) by norm_num]
    exact Int.ceil_intCast _
  refine ⟨fun q hq => ?_, h12, by rw [h12]; norm_num⟩
  unfold calc_aqi
  rw [if_pos (by linarith : q ≤ 12)]

/-- Witness for C8 at the concrete negative input -24. -/
theorem C8_witness :
    ((-24 : ℚ) < 0) ∧ calc_aqi (-24) = pyInt (-24 / 12 * 50) :=
  ⟨by norm_num, C8_negative_first_branch.1 (-24) (by norm_num)⟩

lemma gps_PM25_eq (v : ℚ) : get_pollutant_status "PM2.5" v =
    if v ≤ 12 then ("Good", "#00e400", "#e8f5e8")
    else if v ≤ 35.4 then ("Moderate", "#ff8c00", "#fff3e0")
    else if v ≤ 55.4 then ("Poor", "#ff7e00", "#fff0e6")
    else if v ≤ 150.4 then ("Unhealthy", "#ff0000", "#ffe6e6")
    else if v ≤ 250.4 then ("Severe", "#8f3f97", "#f3e5f5")
    else ("Hazardous", "#7e0023", "#fce4ec") := by
  simp [get_pollutant_status]

lemma gps_PM10_eq (v : ℚ) : get_pollutant_status "PM10" v =
    if v ≤ 54 then ("Good", "#00e400", "#e8f5e8")
    else if v ≤ 154 then ("Moderate", "#ff8c00", "#fff3e0")
    else if v ≤ 254 then ("Poor", "#ff7e00", "#fff0e6")
    else if v ≤ 354 then ("Unhealthy", "#ff0000", "#ffe6e6")
    else if v ≤ 424 then ("Severe", "#8f3f97", "#f3e5f5")
    else ("Hazardous", "#7e0023", "#fce4ec") := by
  simp [get_pollutant_status]

lemma gps_NO2_eq (v : ℚ) : get_pollutant_status "NO2" v =
    if v ≤ 53 then ("Good", "#00e400", "#e8f5e8")
    else if v ≤ 100 then ("Moderate", "#ff8c00", "#fff3e0")
    else if v ≤ 360 then ("Poor", "#ff7e00", "#fff0e6")
    else if v ≤ 649 then ("Unhealthy", "#ff0000", "#ffe6e6")
    else if v ≤ 1249 then ("Severe", "#8f3f97", "#f3e5f5")
    else ("Hazardous", "#7e0023", "#fce4ec") := by
  simp [get_pollutant_status]

lemma gps_O3_eq (v : ℚ) : get_pollutant_status "O3" v =
    if v ≤ 54 then ("Good", "#00e400", "#e8f5e8")
    else if v ≤ 70 then ("Moderate", "#ff8c00", "#fff3e0")
    else if v ≤ 85 then ("Poor", "#ff7e00", "#fff0e6")
    else if v ≤ 105 then ("Unhealthy", "#ff0000", "#ffe6e6")
    else if v ≤ 200 then ("Severe", "#8f3f97", "#f3e5f5")
    else ("Hazardous", "#7e0023", "#fce4ec") := by
  simp [get_pollutant_status]

lemma gps_CO_eq (v : ℚ) : get_pollutant_status "CO" v =
    if v ≤ 4.4 then ("Good", "#00e400", "#e8f5e8")
    else if v ≤ 9.4 then ("Moderate", "#ff8c00", "#fff3e0")
    else if v ≤ 12.4 then ("Poor", "#ff7e00", "#fff0e6")
    else if v ≤ 15.4 then ("Unhealthy", "#ff0000", "#ffe6e6")
    else if v ≤ 30.4 then ("Severe", "#8f3f97", "#f3e5f5")
    else ("Hazardous", "#7e0023", "#fce4ec") := by
  simp [get_pollutant_status]

lemma gps_SO2_eq (v : ℚ) : get_pollutant_status "SO2" v =
    if v ≤ 35 then ("Good", "#00e400", "#e8f5e8")
    else if v ≤ 75 then ("Moderate", "#ff8c00", "#fff3e0")
    else if v ≤ 185 then ("Poor", "#ff7e00", "#fff0e6")
    else if v ≤ 304 then ("Unhealthy", "#ff0000", "#ffe6e6")
    else if v ≤ 604 then ("Severe", "#8f3f97", "#f3e5f5")
    else ("Hazardous", "#7e0023", "#fce4ec") := by
  simp [get_pollutant_status]

/-- Any classifier that evaluates a five-bound table as a `<=`-guarded
if-chain with strictly increasing bounds agrees with the spec-side scan,
closes each band at its upper bound, and yields Hazardous above the last
bound. -/
lemma chain_spec (b1 b2 b3 b4 b5 : ℚ)
    (hb : b1 < b2 ∧ b2 < b3 ∧ b3 < b4 ∧ b4 < b5)
    (f : ℚ → String × String × String)
    (hf : ∀ v : ℚ, f v =
      if v ≤ b1 then ("Good", "#00e400", "#e8f5e8")
      else if v ≤ b2 then ("Moderate", "#ff8c00", "#fff3e0")
      else if v ≤ b3 then ("Poor", "#ff7e00", "#fff0e6")
      else if v ≤ b4 then ("Unhealthy", "#ff0000", "#ffe6e6")
      else if v ≤ b5 then ("Severe", "#8f3f97", "#f3e5f5")
      else ("Hazardous", "#7e0023", "#fce4ec")) :
    (∀ v : ℚ, f v = scanBands (specTable (b1, b2, b3, b4, b5)) v) ∧
    (f b1).1 = "Good" ∧ (f b2).1 = "Moderate" ∧ (f b3).1 = "Poor" ∧
    (f b4).1 = "Unhealthy" ∧ (f b5).1 = "Severe" ∧
    (∀ v : ℚ, b5 < v → (f v).1 = "Hazardous") := by
  obtain ⟨h12, h23, h34, h45⟩ := hb
  refine ⟨fun v => ?_, ?_, ?_, ?_, ?_, ?_, fun v hv => ?_⟩
  · rw [hf v]
    simp only [specTable, scanBands]
  · rw [hf b1, if_pos le_rfl]
  · rw [hf b2, if_neg (not_le.mpr h12), if_pos le_rfl]
  · rw [hf b3, if_neg (not_le.mpr (h12.trans h23)), if_neg (not_le.mpr h23),
      if_pos le_rfl]
  · rw [hf b4, if_neg (not_le.mpr ((h12.trans h23).trans h34)),
      if_neg (not_le.mpr (h23.trans h34)), if_neg (not_le.mpr h34),
      if_pos le_rfl]
  · rw [hf b5, if_neg (not_le.mpr (((h12.trans h23).trans h34).trans h45)),
      if_neg (not_le.mpr ((h23.trans h34).trans h45)),
      if_neg (not_le.mpr (h34.trans h45)), if_neg (not_le.mpr h45),
      if_pos le_rfl]
  · rw [hf v, if_neg (by linarith), if_neg (by linarith), if_neg (by linarith),
      if_neg (by linarith), if_neg (by linarith)]

set_option maxHeartbeats 1000000 in
/-- C2: for every known pollutant, `get_pollutant_status` coincides with
the ascending scan of the breakpoint table of spec section 4.2: the first
band whose upper bound is at least the value wins, with the open-ended
Hazardous band when no bound matches; a value exactly at any upper bound
of any of the six tables falls into that lower (closing) band; and
PM2.5 at 12 is Good while at 12.1 it is Moderate. -/
theorem C2_breakpoint_scan :
    (∀ (p : String) (t : ℚ × ℚ × ℚ × ℚ × ℚ), pollutantBounds p = some t →
      (∀ v : ℚ, get_pollutant_status p v = scanBands (specTable t) v) ∧
      (get_pollutant_status p t.1).1 = "Good" ∧
      (get_pollutant_status p t.2.1).1 = "Moderate" ∧
      (get_pollutant_status p t.2.2.1).1 = "Poor" ∧
      (get_pollutant_status p t.2.2.2.1).1 = "Unhealthy" ∧
      (get_pollutant_status p t.2.2.2.2).1 = "Severe" ∧
      (∀ v : ℚ, t.2.2.2.2 < v → (get_pollutant_status p v).1 = "Hazardous")) ∧
    (get_pollutant_status "PM2.5" 12).1 = "Good" ∧
    (get_pollutant_status "PM2.5" 12.1).1 = "Moderate" := by
  refine ⟨fun p t h => ?_, by norm_num [get_pollutant_status],
    by norm_num [get_pollutant_status]⟩
  unfold pollutantBounds at h
  split_ifs at h with hp1 hp2 hp3 hp4 hp5 hp6
  · subst hp1
    obtain rfl : t = (12, 35.4, 55.4, 150.4, 250.4) := (Option.some.inj h).symm
    exact chain_spec 12 35.4 55.4 150.4 250.4 (by norm_num) _ gps_PM25_eq
  · subst hp2
    obtain rfl : t = (54, 154, 254, 354, 424) := (Option.some.inj h).symm
    exact chain_spec 54 154 254 354 424 (by norm_num) _ gps_PM10_eq
  · subst hp3
    obtain rfl : t = (53, 100, 360, 649, 1249) := (Option.some.inj h).symm
    exact chain_spec 53 100 360 649 1249 (by norm_num) _ gps_NO2_eq
  · subst hp4
    obtain rfl : t = (54, 70, 85, 105, 200) := (Option.some.inj h).symm
    exact chain_spec 54 70 85 105 200 (by norm_num) _ gps_O3_eq
  · subst hp5
    obtain rfl : t = (4.4, 9.4, 12.4, 15.4, 30.4) := (Option.some.inj h).symm
    exact chain_spec 4.4 9.4 12.4 15.4 30.4 (by norm_num) _ gps_CO_eq
  · subst hp6
    obtain rfl : t = (35, 75, 185, 304, 604) := (Option.some.inj h).symm
    exact chain_spec 35 75 185 304 604 (by norm_num) _ gps_SO2_eq

/-- Witness for C2 at PM10: the scan equivalence at value 500 (falling in
the open Hazardous band) and the boundary value 154 closing Moderate. -/
theorem C2_witness :
    pollutantBounds "PM10" = some (54, 154, 254, 354, 424) ∧
    get_pollutant_status "PM10" 500 =
      scanBands (specTable (54, 154, 254, 354, 424)) 500 ∧
    (get_pollutant_status "PM10" (54, 154, 254, 354, 424).2.1).1 = "Moderate" := by
  have h : pollutantBounds "PM10" = some (54, 154, 254, 354, 424) := by
    simp [pollutantBounds]
  have hmain := C2_breakpoint_scan.1 "PM10" (54, 154, 254, 354, 424) h
  exact ⟨h, hmain.1 500, hmain.2.2.1⟩

/-- C9: for every band index k, the marker color `get_aqi_status` gives an
AQI in its k-th band equals the marker color `get_pollutant_status` gives
any known pollutant with a value in the k-th band of its table; the shared
sequence is #00e400, #ff8c00, #ff7e00, #ff0000, #8f3f97, #7e0023, although
the label wordings of the two scales differ. -/
theorem C9_shared_markers :
    (∀ (k : ℕ) (aqi : ℤ) (p : String) (b1 b2 b3 b4 b5 v : ℚ),
      pollutantBounds p = some (b1, b2, b3, b4, b5) →
      aqiBandIdx aqi = k → pollutantBandIdx b1 b2 b3 b4 b5 v = k →
      (get_aqi_status aqi).2.2.1 = (get_pollutant_status p v).2.1 ∧
      (get_aqi_status aqi).2.2.1 = markerColor k) ∧
    markerColor 0 = "#00e400" ∧ markerColor 1 = "#ff8c00" ∧
    markerColor 2 = "#ff7e00" ∧ markerColor 3 = "#ff0000" ∧
    markerColor 4 = "#8f3f97" ∧ markerColor 5 = "#7e0023" := by
  refine ⟨fun k aqi p b1 b2 b3 b4 b5 v hp ha hv => ?_,
    by simp [markerColor], by simp [markerColor], by simp [markerColor],
    by simp [markerColor], by simp [markerColor], by simp [markerColor]⟩
  rw [get_aqi_status_eq_band,
    get_pollutant_status_eq_band p b1 b2 b3 b4 b5 hp v, ha, hv]
  exact ⟨band_marker_eq k, aqiBand_marker k⟩

/-- Witness for C9: band 1 via AQI 75 and O3 at 60. -/
theorem C9_witness :
    pollutantBounds "O3" = some (54, 70, 85, 105, 200) ∧
    aqiBandIdx 75 = 1 ∧ pollutantBandIdx 54 70 85 105 200 60 = 1 ∧
    ((get_aqi_status 75).2.2.1 = (get_pollutant_status "O3" 60).2.1 ∧
      (get_aqi_status 75).2.2.1 = markerColor 1) := by
  have h1 : pollutantBounds "O3" = some (54, 70, 85, 105, 200) := by
    simp [pollutantBounds]
  have h2 : aqiBandIdx 75 = 1 := by norm_num [aqiBandIdx]
  have h3 : pollutantBandIdx 54 70 85 105 200 60 = 1 := by
    norm_num [pollutantBandIdx]
  exact ⟨h1, h2, h3, C9_shared_markers.1 1 75 "O3" 54 70 85 105 200 60 h1 h2 h3⟩

/-- C7 counterexample: the claim says every classification result carries
four fields including a severity_rank ordinal 0..5, but
`get_pollutant_status` returns a three-field tuple with no rank component,
and the extra (second) field of `get_aqi_status` is an emoji token, not an
ordinal 0..5. -/
theorem C7_counterexample :
    get_pollutant_status "PM2.5" 0 = ("Good", "#00e400", "#e8f5e8") ∧
    (get_aqi_status 0).2.1 = "\uF8FF\u00FC\u00F2\u00E4" ∧
    "\uF8FF\u00FC\u00F2\u00E4" ∉ (["0", "1", "2", "3", "4", "5"] : List String) :=
  ⟨by norm_num [get_pollutant_status], by norm_num [get_aqi_status], by decide⟩

/-- C7 amended: each result is computed fresh per call by a pure function
and equals the record of one of the six severity bands, the band ordinal
(0..5) being determined by the scan index rather than stored as a field:
`get_aqi_status` yields the four-field band record (label, emoji token,
marker color, background color) and `get_pollutant_status` the three-field
one (label, marker color, background color). -/
theorem C7_result_shape :
    (∀ aqi : ℤ, aqiBandIdx aqi < 6 ∧
      get_aqi_status aqi = aqiBand (aqiBandIdx aqi)) ∧
    (∀ (p : String) (b1 b2 b3 b4 b5 : ℚ),
      pollutantBounds p = some (b1, b2, b3, b4, b5) →
      ∀ v : ℚ, pollutantBandIdx b1 b2 b3 b4 b5 v < 6 ∧
        get_pollutant_status p v = pollutantBand (pollutantBandIdx b1 b2 b3 b4 b5 v)) :=
  ⟨fun aqi => ⟨aqiBandIdx_lt aqi, get_aqi_status_eq_band aqi⟩,
   fun p b1 b2 b3 b4 b5 h v =>
     ⟨pollutantBandIdx_lt b1 b2 b3 b4 b5 v,
      get_pollutant_status_eq_band p b1 b2 b3 b4 b5 h v⟩⟩

/-- Witness for C7 at SO2 with value 40. -/
theorem C7_witness :
    pollutantBounds "SO2" = some (35, 75, 185, 304, 604) ∧
    (pollutantBandIdx 35 75 185 304 604 40 < 6 ∧
      get_pollutant_status "SO2" 40 =
        pollutantBand (pollutantBandIdx 35 75 185 304 604 40)) := by
  have h : pollutantBounds "SO2" = some (35, 75, 185, 304, 604) := by
    simp [pollutantBounds]
  exact ⟨h, C7_result_shape.2 "SO2" 35 75 185 304 604 h 40⟩

/-- C1: code bug in the fourth segment.  Segments 1-3 and 5-7 and the
clamp above 500.4 follow the claimed formula
floor(alo + (c - lo) / (hi - lo) * (ahi - alo)), and the four
quoted sample values hold; but in the fourth segment (55.4, 150.4] the source
multiplies the ratio by 100 although the claimed AQI segment [150, 200]
spans 50, so calc_aqi 150.4 = 250 while the claimed formula gives 200. -/
theorem C1_segment4_bug :
    (∀ c : ℚ, 0 ≤ c → c ≤ 12 →
      calc_aqi c = ⌊(0 : ℚ) + (c - 0) / (12 - 0) * (50 - 0)⌋) ∧
    (∀ c : ℚ, 12 < c → c ≤ 35.4 →
      calc_aqi c = ⌊(50 : ℚ) + (c - 12) / (35.4 - 12) * (100 - 50)⌋) ∧
    (∀ c : ℚ, 35.4 < c → c ≤ 55.4 →
      calc_aqi c = ⌊(100 : ℚ) + (c - 35.4) / (55.4 - 35.4) * (150 - 100)⌋) ∧
    (∀ c : ℚ, 150.4 < c → c ≤ 250.4 →
      calc_aqi c = ⌊(200 : ℚ) + (c - 150.4) / (250.4 - 150.4) * (300 - 200)⌋) ∧
    (∀ c : ℚ, 250.4 < c → c ≤ 350.4 →
      calc_aqi c = ⌊(300 : ℚ) + (c - 250.4) / (350.4 - 250.4) * (400 - 300)⌋) ∧
    (∀ c : ℚ, 350.4 < c → c ≤ 500.4 →
      calc_aqi c = ⌊(400 : ℚ) + (c - 350.4) / (500.4 - 350.4) * (500 - 400)⌋) ∧
    (∀ c : ℚ, 500.4 < c → calc_aqi c = 500) ∧
    calc_aqi 150.4 = 250 ∧
    (⌊(150 : ℚ) + (150.4 - 55.4) / (150.4 - 55.4) * (200 - 150)⌋ : ℤ) = 200 ∧
    calc_aqi 12 = 50 ∧ calc_aqi 35.4 = 100 ∧ calc_aqi 0 = 0 ∧
    calc_aqi 600 = 500 := by
  refine ⟨fun c h1 h2 => ?_, fun c h1 h2 => ?_, fun c h1 h2 => ?_,
    fun c h1 h2 => ?_, fun c h1 h2 => ?_, fun c h1 h2 => ?_, fun c h1 => ?_,
    by norm_num [calc_aqi, pyInt], by norm_num,
    by norm_num [calc_aqi, pyInt], by norm_num [calc_aqi, pyInt],
    by norm_num [calc_aqi, pyInt], by norm_num [calc_aqi, pyInt]⟩
  · rw [calc_aqi_eq_floor c h1]
    unfold aqiInterp
    rw [if_pos h2]
    congr 1
    ring
  · rw [calc_aqi_eq_floor c (by linarith)]
    unfold aqiInterp
    rw [if_neg (not_le.mpr h1), if_pos h2]
    congr 1
    ring
  · rw [calc_aqi_eq_floor c (by linarith)]
    unfold aqiInterp
    rw [if_neg (not_le.mpr (by linarith)), if_neg (not_le.mpr h1), if_pos h2]
    congr 1
    ring
  · rw [calc_aqi_eq_floor c (by linarith)]
    unfold aqiInterp
    rw [if_neg (not_le.mpr (by linarith)), if_neg (not_le.mpr (by linarith)),
      if_neg (not_le.mpr (by linarith)), if_neg (not_le.mpr h1), if_pos h2]
    congr 1
    ring
  · rw [calc_aqi_eq_floor c (by linarith)]
    unfold aqiInterp
    rw [if_neg (not_le.mpr (by linarith)), if_neg (not_le.mpr (by linarith)),
      if_neg (not_le.mpr (by linarith)), if_neg (not_le.mpr (by linarith)),
      if_neg (not_le.mpr h1), if_pos h2]
    congr 1
    ring
  · rw [calc_aqi_eq_floor c (by linarith)]
    unfold aqiInterp
    rw [if_neg (not_le.mpr (by linarith)), if_neg (not_le.mpr (by linarith)),
      if_neg (not_le.mpr (by linarith)), if_neg (not_le.mpr (by linarith)),
      if_neg (not_le.mpr (by linarith)), if_neg (not_le.mpr h1), if_pos h2]
    congr 1
    ring
  · unfold calc_aqi
    split_ifs <;> first | rfl | (exfalso; linarith)

/-- Witness for C1 in the second segment, at c = 20. -/
theorem C1_witness :
    ((12 : ℚ) < 20 ∧ (20 : ℚ) ≤ 35.4) ∧
    calc_aqi 20 = ⌊(50 : ℚ) + (20 - 12) / (35.4 - 12) * (100 - 50)⌋ :=
  ⟨⟨by norm_num, by norm_num⟩,
    C1_segment4_bug.2.1 20 (by norm_num) (by norm_num)⟩

/-- C4: code bug — monotonicity fails across the boundary of the fourth
segment: calc_aqi 150.4 = 250 exceeds calc_aqi 151 = 200 although
150.4 ≤ 151, because the fourth branch interpolates up to 250 while the
fifth restarts at 200; the boundedness half of the claim does hold: for
every non-negative input the result lies in [0, 500]. -/
theorem C4_monotonicity_bug :
    calc_aqi 150.4 = 250 ∧ calc_aqi 151 = 200 ∧
    ((150.4 : ℚ) ≤ 151 ∧ ¬ calc_aqi 150.4 ≤ calc_aqi 151) ∧
    (∀ q : ℚ, 0 ≤ q → 0 ≤ calc_aqi q ∧ calc_aqi q ≤ 500) := by
  have h1 : calc_aqi 150.4 = 250 := by norm_num [calc_aqi, pyInt]
  have h2 : calc_aqi 151 = 200 := by norm_num [calc_aqi, pyInt]
  exact ⟨h1, h2, ⟨by norm_num, by rw [h1, h2]; norm_num⟩,
    fun q hq => ⟨calc_aqi_nonneg q hq, calc_aqi_le_500 q hq⟩⟩

/-- Witness for C4 at q = 60. -/
theorem C4_witness :
    (0 : ℚ) ≤ 60 ∧ (0 ≤ calc_aqi 60 ∧ calc_aqi 60 ≤ 500) :=
  ⟨by norm_num, C4_monotonicity_bug.2.2.2 60 (by norm_num)⟩

/-- C6 counterexample: at the malformed input -12 the code returns the
value -50 instead of signaling InvalidInput as the claim states (the
spec-modelled checked variant would signal). -/
theorem C6_counterexample :
    calc_aqi (-12) = -50 ∧
    calcAqiChecked (-12) = Except.error "InvalidInput" := by
  constructor
  · norm_num [calc_aqi, pyInt]
    rw [show ((-50 : ℚ)) = ((-50 : ℤ) : ℚ) by norm_num]
    exact Int.ceil_intCast _
  · norm_num [calcAqiChecked]

/-- C6 amended: the code never signals: `calc_aqi` is total, for every
well-formed (non-negative) input it returns a well-defined result in
[0, 500], and for malformed (negative) input it does not signal
InvalidInput — contrary to the policy of spec section 7, modelled by
`calcAqiChecked` — but returns the first-branch value; NaN does not exist
in the rational model. -/
theorem C6_total_no_signal :
    (∀ q : ℚ, 0 ≤ q → 0 ≤ calc_aqi q ∧ calc_aqi q ≤ 500) ∧
    (∀ q : ℚ, q < 0 → calc_aqi q = pyInt (q / 12 * 50) ∧
      calcAqiChecked q = Except.error "InvalidInput") := by
  refine ⟨fun q hq => ⟨calc_aqi_nonneg q hq, calc_aqi_le_500 q hq⟩,
    fun q hq => ⟨?_, ?_⟩⟩
  · unfold calc_aqi
    rw [if_pos (by linarith : q ≤ 12)]
  · unfold calcAqiChecked
    rw [if_pos hq]

/-- Witness for C6 at q = 5 and q = -1. -/
theorem C6_witness :
    ((0 : ℚ) ≤ 5 ∧ (0 ≤ calc_aqi 5 ∧ calc_aqi 5 ≤ 500)) ∧
    ((-1 : ℚ) < 0 ∧ (calc_aqi (-1) = pyInt (-1 / 12 * 50) ∧
      calcAqiChecked (-1) = Except.error "InvalidInput")) :=
  ⟨⟨by norm_num, C6_total_no_signal.1 5 (by norm_num)⟩,
   ⟨by norm_num, C6_total_no_signal.2 (-1) (by norm_num)⟩⟩

/-- C10: in the pollutant-card data of `create_pollutant_cards`, the CO
and SO2 entries carry the fixed status Good and color #00e400 regardless
of their value (with CO defaulting to 95 and SO2 to 0 when absent),
bypassing `get_pollutant_status` — which would classify CO at 95 as
Hazardous — while the PM2.5, PM10, NO2 and O3 entries carry the status and
color computed by `get_pollutant_status` from the row. -/
theorem C10_cards_hardcode :
    (∀ r : Row,
      (∀ e ∈ create_pollutant_cards_data r, e.1 = "CO" ∨ e.1 = "SO2" →
        e.2.2.1 = "Good" ∧ e.2.2.2 = "#00e400") ∧
      (∀ e ∈ create_pollutant_cards_data r, e.1 ≠ "CO" → e.1 ≠ "SO2" →
        e.2.2.1 = (get_pollutant_status e.1 e.2.1).1 ∧
        e.2.2.2 = (get_pollutant_status e.1 e.2.1).2.1) ∧
      (r.co = none →
        ("CO", (95 : ℚ), "Good", "#00e400") ∈ create_pollutant_cards_data r) ∧
      (r.so2 = none →
        ("SO2", (0 : ℚ), "Good", "#00e400") ∈ create_pollutant_cards_data r)) ∧
    (get_pollutant_status "CO" 95).1 = "Hazardous" := by
  refine ⟨fun r => ⟨?_, ?_, ?_, ?_⟩, by rw [gps_CO_eq]; norm_num⟩
  · intro e he hco
    simp only [create_pollutant_cards_data, List.mem_cons,
      List.not_mem_nil, or_false] at he
    rcases he with rfl | rfl | rfl | rfl | rfl | rfl <;> simp_all
  · intro e he h1 h2
    simp only [create_pollutant_cards_data, List.mem_cons,
      List.not_mem_nil, or_false] at he
    rcases he with rfl | rfl | rfl | rfl | rfl | rfl <;> simp_all
  · intro h
    simp [create_pollutant_cards_data, h]
  · intro h
    simp [create_pollutant_cards_data, h]

/-- Witness for C10: a row with CO absent carries the hardcoded Good/green
CO entry at the default value 95. -/
theorem C10_witness :
    (Row.mk 10 20 30 40 none none).co = none ∧
    ("CO", (95 : ℚ), "Good", "#00e400") ∈
      create_pollutant_cards_data (Row.mk 10 20 30 40 none none) :=
  ⟨rfl, (C10_cards_hardcode.1 (Row.mk 10 20 30 40 none none)).2.2.1 rfl⟩

end UrbanAir
